import Mathlib

/-!
Shallow embedding of the ha-pifire Home Assistant integration
(`custom_components/pifire`): the payload coercion helpers, the entity
derivations (climate thermostat, mode / P-Mode selectors, probe temperature
sensors), the adaptive update coordinator, the API client's request
construction, and the incremental sensor-discovery scan.

JSON scalar values are modelled by `JVal`; Python dicts at fixed paths are
modelled as association lists; numbers are `Rat`.
-/

namespace PiFire

/-- A JSON scalar value as seen by the integration.  `jother` stands for any
non-scalar JSON value (object or array), which every numeric coercion in the
source rejects. -/
inductive JVal where
  | jnull
  | jnum (q : Rat)
  | jstr (s : String)
  | jbool (b : Bool)
  | jother
deriving DecidableEq

/-- ASCII lowercasing of a single character; models Python `str.lower` on the
characters the integration compares (mode tokens, probe labels). -/
def lowChar (c : Char) : Char :=
  if 65 ≤ c.toNat ∧ c.toNat ≤ 90 then Char.ofNat (c.toNat + 32) else c

/-- ASCII uppercasing of a single character; models Python `str.upper` on one
character (used by `str.title`). -/
def upChar (c : Char) : Char :=
  if 97 ≤ c.toNat ∧ c.toNat ≤ 122 then Char.ofNat (c.toNat - 32) else c

/-- Models Python `str.lower()` (ASCII). -/
def lowerStr (s : String) : String := ⟨s.data.map lowChar⟩

/-- Is `c` an ASCII letter (a cased character for `str.title`). -/
def isAlphaChar (c : Char) : Bool :=
  ('a' ≤ c && c ≤ 'z') || ('A' ≤ c && c ≤ 'Z')

/-- Worker for `pyTitle`: the boolean records whether the previous character
was cased. -/
def pyTitleChars : Bool → List Char → List Char
  | _, [] => []
  | prev, c :: cs =>
    if isAlphaChar c then
      (if prev then lowChar c else upChar c) :: pyTitleChars true cs
    else
      c :: pyTitleChars false cs

/-- Models Python `str.title()` (ASCII): the first letter of every maximal run
of letters is uppercased, the rest lowercased. -/
def pyTitle (s : String) : String := ⟨pyTitleChars false s.data⟩

/-- The whitespace characters stripped by Python `float(str)`. -/
def isSpaceChar (c : Char) : Bool :=
  c == ' ' || c == '\t' || c == '\n' || c == '\r' || c == '\x0b' || c == '\x0c'

/-- Strip leading and trailing whitespace from a character list. -/
def trimChars (cs : List Char) : List Char :=
  ((cs.dropWhile isSpaceChar).reverse.dropWhile isSpaceChar).reverse

/-- Decimal value of a digit string. -/
def digitsToNat (cs : List Char) : Nat :=
  cs.foldl (fun a c => a * 10 + (c.toNat - 48)) 0

/-- Parse an unsigned decimal literal (`"12"`, `"12.5"`, `".5"`, `"12."`),
the shapes of numeric strings the device emits. -/
def parseUnsignedFloat (cs : List Char) : Option Rat :=
  let intPart := cs.takeWhile Char.isDigit
  let rest := cs.dropWhile Char.isDigit
  if rest.isEmpty then
    if intPart.isEmpty then none else some (digitsToNat intPart)
  else if rest.head? = some '.' then
    let frac := rest.tail
    if frac.all Char.isDigit ∧ ¬(intPart.isEmpty ∧ frac.isEmpty) then
      some ((digitsToNat intPart : Rat) + (digitsToNat frac : Rat) / ((10 : Rat) ^ frac.length))
    else none
  else none

/-- Models Python `float(str)` on the decimal literals the device emits:
optional surrounding whitespace, optional sign, decimal digits with an
optional fractional part.  Any other string fails (returns `none`), as
`float(...)` raises `ValueError` there. -/
def parseFloat (s : String) : Option Rat :=
  let cs := trimChars s.data
  if cs.head? = some '+' then parseUnsignedFloat cs.tail
  else if cs.head? = some '-' then (parseUnsignedFloat cs.tail).map (fun q => -q)
  else parseUnsignedFloat cs

/-- Models Python `float(x)` applied to a JSON value: numbers pass through,
booleans coerce to 0/1, strings are parsed, `None` and non-scalars raise
(modelled as `none`). -/
def pyFloat : JVal → Option Rat
  | .jnum q => some q
  | .jbool b => some (if b then 1 else 0)
  | .jstr s => parseFloat s
  | .jnull => none
  | .jother => none

/-- The probe sensor's `_num` helper (`sensor.py`): the literal string
`"unknown"` (any case) coerces to `0.0`; everything else goes through
`float(x)`, failures giving `None`. -/
def py_num (v : JVal) : Option Rat :=
  match v with
  | .jstr s => if lowerStr s = "unknown" then some 0 else parseFloat s
  | v => pyFloat v

/-- `_num(dict.get(key))`: a missing key behaves like `float(None)`,
i.e. `None`. -/
def py_num_opt (o : Option JVal) : Option Rat := o.bind py_num

/-- The `status` section of the `/api/current` payload, restricted to the
fields the embedded code reads.  The probe groups model
`status["probe_status"]["P"/"F"/"AUX"]`: each entry is a probe label paired
with the truth of `isinstance(meta, dict) and meta.get("enabled", False)`. -/
structure RawStatus where
  mode : Option String
  probeP : List (String × Bool)
  probeF : List (String × Bool)
  probeAUX : List (String × Bool)

/-- The `current` section of the `/api/current` payload: the primary setpoint
`PSP` and the three temperature maps `P` (probe setpoint/actual group),
`F` (filtered temperatures) and `NT` (raw temperatures). -/
structure RawCurrent where
  PSP : Option JVal
  P : List (String × JVal)
  F : List (String × JVal)
  NT : List (String × JVal)

/-- The coordinator's combined data dict.  `hopper` is the top-level
`"hopper"` key: `none` when the key is absent. -/
structure RawPayload where
  status : RawStatus
  current : RawCurrent
  hopper : Option (List (String × JVal))

/-- `status.get("mode", "").lower()` — the normalization applied by every
mode consumer. -/
def norm_mode (p : RawPayload) : String := lowerStr (p.status.mode.getD "")

/-- An HTTP request the integration issues against the device. -/
structure HttpRequest where
  method : String
  url : String
deriving DecidableEq

/-- Home Assistant HVAC mode, restricted to the two values the thermostat
exposes. -/
inductive HVACMode where
  | off
  | heat
deriving DecidableEq

/-- `PiFireThermostat.hvac_mode` (`climate.py`): OFF exactly when the
lowercased mode equals `"stop"`, HEAT otherwise. -/
def hvac_mode (p : RawPayload) : HVACMode :=
  if norm_mode p = "stop" then .off else .heat

/-- `PiFireThermostat.current_temperature` (`climate.py`): `float` applied to
`current["P"]["Grill"]`, `None` when the key is absent, `None` (not an error)
when the coercion fails. -/
def current_temperature (p : RawPayload) : Option Rat :=
  (p.current.P.lookup "Grill").bind pyFloat

/-- `PiFireThermostat.target_temperature` (`climate.py`): try
`float(current["PSP"])` first; on a missing key or failed coercion fall back
to `float(current["P"]["Grill"])`, `None` when that also fails. -/
def target_temperature (p : RawPayload) : Option Rat :=
  match p.current.PSP with
  | some psp =>
    match pyFloat psp with
    | some q => some q
    | none => (p.current.P.lookup "Grill").bind pyFloat
  | none => (p.current.P.lookup "Grill").bind pyFloat

/-- `PiFireTemperatureSetpoint._get_current_psp` (`number.py`): try
`float(current["PSP"])`; if the key is absent or the coercion fails, try
`float(current["P"]["Grill"])`; else `None`. -/
def get_current_psp (p : RawPayload) : Option Rat :=
  match p.current.PSP with
  | some psp =>
    match pyFloat psp with
    | some q => some q
    | none =>
      match p.current.P.lookup "Grill" with
      | some sp => pyFloat sp
      | none => none
  | none =>
    match p.current.P.lookup "Grill" with
    | some sp => pyFloat sp
    | none => none

/-- The setpoint precedence exactly as the spec words it: the primary-setpoint
field when present and numeric, else the grill entry of the `P` map when
present and numeric, else absent.  Kept separate from the code-derived
definitions so the refinement can be stated. -/
def spec_setpoint (c : RawCurrent) : Option Rat :=
  match c.PSP.bind pyFloat with
  | some q => some q
  | none => (c.P.lookup "Grill").bind pyFloat

/-- The option list of `PiFireModeSelector` (`select.py`). -/
def mode_options : List String :=
  ["Stop", "Startup", "Smoke", "Hold", "Shutdown", "Monitor"]

/-- `PiFireModeSelector.current_option` (`select.py`): return
`mode.title()` when the mode field is a truthy string whose title case is one
of the options, else fall back to `"Stop"`. -/
def current_option (p : RawPayload) : String :=
  match p.status.mode with
  | some m => if m ≠ "" ∧ pyTitle m ∈ mode_options then pyTitle m else "Stop"
  | none => "Stop"

/-- `PiFireProbeTempSensor.native_value` (`sensor.py`) for probe `label`:
grill in stop mode is forced to `0.0`; otherwise the grill reads
`_num(P["Grill"])`; any other probe reads `_num(F[label])` and falls back to
`_num(NT[label])` when the primary is `None` or `0`, accepting the fallback
only when it is itself neither `None` nor `0`. -/
def native_value (p : RawPayload) (label : String) : Option Rat :=
  let mode := norm_mode p
  if lowerStr label = "grill" ∧ mode = "stop" then some 0
  else if lowerStr label = "grill" then py_num_opt (p.current.P.lookup "Grill")
  else
    let val := py_num_opt (p.current.F.lookup label)
    if val = none ∨ val = some 0 then
      let alt := py_num_opt (p.current.NT.lookup label)
      if alt ≠ none ∧ alt ≠ some 0 then alt else val
    else val

/-- The update intervals of `PiFireDataUpdateCoordinator` (`__init__.py`),
in seconds. -/
def FAST_UPDATE_INTERVAL : Nat := 5

/-- Slow update interval (seconds). -/
def SLOW_UPDATE_INTERVAL : Nat := 30

/-- The modes that require fast updates (`__init__.py`). -/
def FAST_UPDATE_MODES : List String := ["startup", "smoke", "monitor", "hold"]

/-- The coordinator is constructed with `update_interval=SLOW_UPDATE_INTERVAL`. -/
def initial_update_interval : Nat := SLOW_UPDATE_INTERVAL

/-- `PiFireDataUpdateCoordinator._adjust_update_interval`: the required
interval for a combined payload. -/
def required_interval (data : RawPayload) : Nat :=
  if norm_mode data ∈ FAST_UPDATE_MODES then FAST_UPDATE_INTERVAL
  else SLOW_UPDATE_INTERVAL

/-- The interval mutation performed at the end of a successful poll cycle:
`update_interval` is reassigned only when it differs from the required one. -/
def adjust_update_interval (interval : Nat) (data : RawPayload) : Nat :=
  let required := required_interval data
  if interval ≠ required then required else interval

/-- The coordinator's interval after each successful poll cycle of a run:
the head of the result is the interval in effect for the wait following the
first cycle, and so on.  The interval in effect while cycle `i` waits to run
is the entry `i - 1` (or `initial_update_interval` for the first cycle), so a
mode change takes effect only from the following cycle. -/
def run_polls (interval : Nat) : List RawPayload → List Nat
  | [] => []
  | p :: ps =>
    let next := adjust_update_interval interval p
    next :: run_polls next ps

/-- `PiFireClient.get_hopper_data` (`pifire_client.py`): the decoded
`/api/hopper` body on success, and an empty dict instead of a raised error on
any failure (the endpoint is optional). -/
def get_hopper_data (r : Except Unit (List (String × JVal))) : List (String × JVal) :=
  match r with
  | .ok h => h
  | .error _ => []

/-- `PiFireDataUpdateCoordinator._async_update_data`: a failed current fetch
fails the cycle (`UpdateFailed`); otherwise the hopper fetch result (already
error-swallowed by `get_hopper_data`) is merged in under the `"hopper"` key
only when non-empty. -/
def async_update_data (currentResult : Except Unit RawPayload)
    (hopperResult : Except Unit (List (String × JVal))) : Except Unit RawPayload :=
  match currentResult with
  | .error _ => .error ()
  | .ok cur =>
    let hopper_data := get_hopper_data hopperResult
    if hopper_data.isEmpty then .ok cur
    else .ok { cur with hopper := some hopper_data }

/-- `PiFireClient.prime_pellets` (`pifire_client.py`): unconditionally issues
one GET to `/api/set/mode/prime/{grams}/{next_mode}`; `net` models whether the
device answers 2xx; a network failure is re-raised as
`"Failed to prime pellets"`.  There is no validation of `grams`. -/
def prime_pellets (net : HttpRequest → Bool) (base : String) (grams : Int)
    (next_mode : String) : List HttpRequest × Except String Unit :=
  let req : HttpRequest :=
    { method := "GET"
      url := base ++ "/api/set/mode/prime/" ++ toString grams ++ "/" ++ next_mode }
  ([req], if net req then .ok () else .error "Failed to prime pellets")

/-- The option list of `PiFirePModeSelector` (`select.py`). -/
def pmode_options : List String :=
  ["P0", "P1", "P2", "P3", "P4", "P5", "P6", "P7", "P8", "P9"]

/-- `PiFirePModeSelector._is_pmode_active` (`select.py`): the P-Mode level can
only be sent while the device mode is `"hold"`. -/
def is_pmode_active (p : RawPayload) : Bool := norm_mode p = "hold"

/-- `PiFirePModeSelector.async_select_option` (`select.py`): reject options
outside P0–P9, then reject when the mode is not hold — both before any
network request; otherwise parse the digit after `P` and POST
`/api/set/pmode/{n}`.  The result pairs the requests actually issued with the
raised error or success. -/
def pmode_select_option (p : RawPayload) (base : String) (net : HttpRequest → Bool)
    (option : String) : List HttpRequest × Except String Unit :=
  if option ∉ pmode_options then
    ([], .error ("Invalid P-Mode option: " ++ option))
  else if ¬ is_pmode_active p then
    ([], .error "P-Mode must be active to change P-Mode settings")
  else
    match option.data.get? 1 with
    | some c =>
      if c.isDigit then
        let req : HttpRequest :=
          { method := "POST", url := base ++ "/api/set/pmode/" ++ toString (c.toNat - 48) }
        ([req], if net req then .ok () else .error "Failed to set P-Mode")
      else ([], .error ("Invalid P-Mode format: " ++ option))
    | none => ([], .error ("Invalid P-Mode format: " ++ option))

/-- Insertion into a list sorted by the boolean relation `le`. -/
def insertBy (le : String → String → Bool) (x : String) : List String → List String
  | [] => [x]
  | y :: ys => if le x y then x :: y :: ys else y :: insertBy le x ys

/-- Insertion sort by the boolean relation `le`; models Python `sorted`. -/
def sortBy (le : String → String → Bool) : List String → List String
  | [] => []
  | x :: xs => insertBy le x (sortBy le xs)

/-- Lexicographic comparison of character lists by code point, as Python
compares strings. -/
def charListLe : List Char → List Char → Bool
  | [], _ => true
  | _ :: _, [] => false
  | a :: as, b :: bs =>
    if a.toNat < b.toNat then true
    else if b.toNat < a.toNat then false
    else charListLe as bs

/-- Python string `<=` (by code points). -/
def str_le (a b : String) : Bool := charListLe a.data b.data

/-- The sort key comparison of `_SensorManager.discover_from_payload`
(`sensor.py`): `key=lambda x: (x.lower() != "grill", x)` — the grill label
first, then code-point order. -/
def grill_key_le (a b : String) : Bool :=
  let ka : Bool := lowerStr a ≠ "grill"
  let kb : Bool := lowerStr b ≠ "grill"
  if ka = kb then str_le a b else ka = false

/-- The enabled probe labels collected from
`status["probe_status"]["P"/"F"/"AUX"]`, in group then insertion order. -/
def enabled_labels (st : RawStatus) : List String :=
  (st.probeP.filterMap fun lb => if lb.2 then some lb.1 else none) ++
  (st.probeF.filterMap fun lb => if lb.2 then some lb.1 else none) ++
  (st.probeAUX.filterMap fun lb => if lb.2 then some lb.1 else none)

/-- The keys of an association list, in order. -/
def keysOf (m : List (String × JVal)) : List String := m.map Prod.fst

/-- The probe label list `discover_from_payload` iterates: the enabled labels
from `probe_status`, or — when that list is empty — the sorted, deduplicated
union of the `F`, `NT` and `P` keys; finally sorted grill-first. -/
def scan_labels (p : RawPayload) : List String :=
  let labels0 := enabled_labels p.status
  let labels1 :=
    if labels0.isEmpty then
      sortBy str_le ((keysOf p.current.F ++ keysOf p.current.NT ++ keysOf p.current.P).dedup)
    else labels0
  sortBy grill_key_le labels1

/-- `exists = (label in ftemps) or (label in nt) or (label in pmap)`. -/
def scan_exists (p : RawPayload) (l : String) : Bool :=
  (p.current.F.lookup l).isSome || (p.current.NT.lookup l).isSome ||
    (p.current.P.lookup l).isSome

/-- `isinstance(hopper, dict) and "hopper_level" in hopper` for the merged
payload's `"hopper"` key. -/
def pellet_cond (p : RawPayload) : Bool :=
  ((p.hopper.getD []).lookup "hopper_level").isSome

/-- The probe-creation loop of `discover_from_payload`: walk the sorted
labels; skip a label with no value in `F`/`NT`/`P`; skip a key already in the
created set; otherwise emit `"probe:<label>"` and add it to the created set
(so a duplicate label in the same scan is emitted once). -/
def probe_loop (created : List String) (ex : String → Bool) : List String → List String
  | [] => []
  | l :: ls =>
    if ex l = true then
      if ("probe:" ++ l) ∈ created then probe_loop created ex ls
      else ("probe:" ++ l) :: probe_loop (created ++ ["probe:" ++ l]) ex ls
    else probe_loop created ex ls

/-- The recipe key emitted by a scan: `"recipe"` unless already created. -/
def scan_k1 (created : List String) : List String :=
  if "recipe" ∈ created then [] else ["recipe"]

/-- The created set after the recipe step. -/
def scan_c1 (created : List String) : List String := created ++ scan_k1 created

/-- The runtime key emitted by a scan: `"runtime"` unless already created. -/
def scan_k2 (created : List String) : List String :=
  if "runtime" ∈ scan_c1 created then [] else ["runtime"]

/-- The created set after the runtime step. -/
def scan_c2 (created : List String) : List String :=
  scan_c1 created ++ scan_k2 created

/-- The pellet-level key emitted by a scan: `"pellet_level"` when the hopper
section reports a level and the key is not yet created. -/
def scan_k3 (created : List String) (p : RawPayload) : List String :=
  if pellet_cond p = true ∧ "pellet_level" ∉ scan_c2 created then ["pellet_level"]
  else []

/-- The created set after the pellet step. -/
def scan_c3 (created : List String) (p : RawPayload) : List String :=
  scan_c2 created ++ scan_k3 created p

/-- The probe keys emitted by a scan. -/
def scan_pk (created : List String) (p : RawPayload) : List String :=
  probe_loop (scan_c3 created p) (scan_exists p) (scan_labels p)

/-- `_SensorManager.discover_from_payload` (`sensor.py`): given the created
key set and the coordinator data (`none` models a non-dict payload, on which
the scan returns immediately), produce the newly discovered keys in emission
order and the updated created set.  `"recipe"` and `"runtime"` are
unconditional, `"pellet_level"` requires a hopper level, probe keys come from
`probe_loop`.  Entity construction is assumed not to raise (the `except`
branches around `async_add_entities` are Home Assistant plumbing). -/
def scan (created : List String) : Option RawPayload → List String × List String
  | none => ([], created)
  | some p =>
    (scan_k1 created ++ (scan_k2 created ++ (scan_k3 created p ++ scan_pk created p)),
     scan_c3 created p ++ scan_pk created p)

/-- Iterate `scan` over a sequence of poll payloads, returning the emitted
key lists of each cycle and the final created set. -/
def scan_all (created : List String) : List (Option RawPayload) → List (List String) × List String
  | [] => ([], created)
  | p :: ps =>
    let r := scan created p
    let rest := scan_all r.2 ps
    (r.1 :: rest.1, rest.2)

/-- A payload whose `status` section has no mode field. -/
def no_mode_payload : RawPayload := ⟨⟨none, [], [], []⟩, ⟨none, [], [], []⟩, none⟩

/-- A payload reporting `mode == "stop"` and nothing else. -/
def stop_payload : RawPayload := ⟨⟨some "stop", [], [], []⟩, ⟨none, [], [], []⟩, none⟩

/-- A payload with only a mode field. -/
def mk_mode_payload (m : Option String) : RawPayload :=
  ⟨⟨m, [], [], []⟩, ⟨none, [], [], []⟩, none⟩

/-- A stopped device still reporting a stale grill temperature of 150. -/
def c3_payload : RawPayload :=
  ⟨⟨some "stop", [], [], []⟩, ⟨none, [("Grill", .jnum 150)], [], []⟩, none⟩

/-- A probe payload whose filtered value is 0 and raw value is 42. -/
def c4_payload : RawPayload :=
  ⟨⟨some "hold", [], [], []⟩,
   ⟨none, [], [("Probe1", .jnum 0)], [("Probe1", .jnum 42)]⟩, none⟩

/-- A holding device whose grill field is the literal string `"unknown"`. -/
def c5_payload : RawPayload :=
  ⟨⟨some "hold", [], [], []⟩, ⟨none, [("Grill", .jstr "unknown")], [], []⟩, none⟩

/-- The spec's end-to-end scenario payload:
`{"status":{"mode":"Hold"},"current":{"PSP":225,"P":{"Grill":224}}}`. -/
def scenario_payload : RawPayload :=
  ⟨⟨some "Hold", [], [], []⟩, ⟨some (.jnum 225), [("Grill", .jnum 224)], [], []⟩, none⟩

/-- A discovery payload with a grill and one probe. -/
def disc_payload1 : RawPayload :=
  ⟨⟨none, [], [], []⟩, ⟨none, [("Grill", .jnum 100)], [("Probe1", .jnum 50)], []⟩, none⟩

/-- `disc_payload1` with one additional probe label `Probe2`. -/
def disc_payload2 : RawPayload :=
  ⟨⟨none, [], [], []⟩,
   ⟨none, [("Grill", .jnum 100)], [("Probe1", .jnum 50), ("Probe2", .jnum 60)], []⟩, none⟩

/-- The created set after scanning `disc_payload1` from an empty set. -/
def disc_state1 : List String := ["recipe", "runtime", "probe:Grill", "probe:Probe1"]

/-- The payload's mode field is missing, empty, or not one of the recognized
selector options (`mode.title() in self.options` fails). -/
def mode_unrecognized (p : RawPayload) : Prop :=
  match p.status.mode with
  | none => True
  | some m => m = "" ∨ pyTitle m ∉ mode_options

/-- `Char.ofNat` below the surrogate range round-trips through `toNat`. -/
theorem toNat_ofNat_lt {n : Nat} (h : n < 55296) : (Char.ofNat n).toNat = n := by
  unfold Char.ofNat
  rw [dif_pos (Or.inl h)]
  rfl

/-- A character that lowercases to `u` is `u` or `U`. -/
theorem of_lowChar_u {c : Char} (h : lowChar c = 'u') : c = 'u' ∨ c = 'U' := by
  unfold lowChar at h
  split at h
  · rename_i hc
    right
    have h2 : (Char.ofNat (c.toNat + 32)).toNat = 117 := by rw [h]; decide
    rw [toNat_ofNat_lt (by omega)] at h2
    have h3 : c.toNat = 85 := by omega
    calc c = Char.ofNat c.toNat := (Char.ofNat_toNat c).symm
      _ = Char.ofNat 85 := by rw [h3]
      _ = 'U' := by decide
  · left; exact h

/-- A character that lowercases to `n` is `n` or `N`. -/
theorem of_lowChar_n {c : Char} (h : lowChar c = 'n') : c = 'n' ∨ c = 'N' := by
  unfold lowChar at h
  split at h
  · rename_i hc
    right
    have h2 : (Char.ofNat (c.toNat + 32)).toNat = 110 := by rw [h]; decide
    rw [toNat_ofNat_lt (by omega)] at h2
    have h3 : c.toNat = 78 := by omega
    calc c = Char.ofNat c.toNat := (Char.ofNat_toNat c).symm
      _ = Char.ofNat 78 := by rw [h3]
      _ = 'N' := by decide
  · left; exact h

/-- A string lowercasing to `"unknown"` has seven characters, the first
lowercasing to `u` and the last to `n`. -/
theorem data_of_unknown {s : String} (h : lowerStr s = "unknown") :
    ∃ c0 c1 c2 c3 c4 c5 c6, s.data = [c0, c1, c2, c3, c4, c5, c6] ∧
      lowChar c0 = 'u' ∧ lowChar c6 = 'n' := by
  have hd : s.data.map lowChar = ['u', 'n', 'k', 'n', 'o', 'w', 'n'] :=
    congrArg String.data h
  obtain ⟨c0, t0, h0, hc0, hm0⟩ := List.map_eq_cons_iff.mp hd
  obtain ⟨c1, t1, h1, hc1, hm1⟩ := List.map_eq_cons_iff.mp hm0
  obtain ⟨c2, t2, h2, hc2, hm2⟩ := List.map_eq_cons_iff.mp hm1
  obtain ⟨c3, t3, h3, hc3, hm3⟩ := List.map_eq_cons_iff.mp hm2
  obtain ⟨c4, t4, h4, hc4, hm4⟩ := List.map_eq_cons_iff.mp hm3
  obtain ⟨c5, t5, h5, hc5, hm5⟩ := List.map_eq_cons_iff.mp hm4
  obtain ⟨c6, t6, h6, hc6, hm6⟩ := List.map_eq_cons_iff.mp hm5
  have ht6 : t6 = [] := List.map_eq_nil_iff.mp hm6
  subst ht6 h6 h5 h4 h3 h2 h1
  exact ⟨c0, c1, c2, c3, c4, c5, c6, h0, hc0, hc6⟩

/-- `dropWhile` leaves a list alone when the predicate fails on its head. -/
theorem dropWhile_eq_self (p : Char → Bool) (l : List Char)
    (h : ∀ c, l.head? = some c → p c = false) : l.dropWhile p = l := by
  cases l with
  | nil => rfl
  | cons a l => simp [List.dropWhile, h a rfl]

/-- `trimChars` leaves a list alone when neither end is whitespace. -/
theorem trimChars_eq_self (cs : List Char)
    (h1 : ∀ c, cs.head? = some c → isSpaceChar c = false)
    (h2 : ∀ c, cs.getLast? = some c → isSpaceChar c = false) :
    trimChars cs = cs := by
  unfold trimChars
  rw [dropWhile_eq_self _ _ h1]
  rw [dropWhile_eq_self _ _ ?_, List.reverse_reverse]
  intro c hc
  rw [List.head?_reverse] at hc
  exact h2 c hc

/-- No casing of the string `"unknown"` parses as a Python float. -/
theorem parseFloat_unknown {s : String} (h : lowerStr s = "unknown") :
    parseFloat s = none := by
  obtain ⟨c0, c1, c2, c3, c4, c5, c6, hs, hu, hn⟩ := data_of_unknown h
  have ht : trimChars s.data = s.data := by
    apply trimChars_eq_self
    · intro c hc
      rw [hs] at hc
      simp only [List.head?, Option.some.injEq] at hc
      subst hc
      rcases of_lowChar_u hu with h0 | h0 <;> rw [h0] <;> decide
    · intro c hc
      have hs' : s.data = [c0, c1, c2, c3, c4, c5] ++ [c6] := by rw [hs]; rfl
      rw [hs', List.getLast?_concat, Option.some.injEq] at hc
      subst hc
      rcases of_lowChar_n hn with h6 | h6 <;> rw [h6] <;> decide
  rcases of_lowChar_u hu with h0 | h0 <;> rw [h0] at hs <;>
    · show parseFloat s = none
      unfold parseFloat
      rw [ht, hs]
      rfl

/-- The interval mutation always ends at the required interval. -/
theorem adjust_eq (i : Nat) (p : RawPayload) :
    adjust_update_interval i p = required_interval p := by
  simp only [adjust_update_interval]
  split
  · rfl
  · rename_i h
    exact not_not.mp h

/-- The interval after successful cycle `i` is the required interval of cycle
`i`'s payload, for any starting interval. -/
theorem run_polls_get (ps : List RawPayload) : ∀ (init i : Nat) (p : RawPayload),
    ps.get? i = some p →
    (run_polls init ps).get? i = some (required_interval p) := by
  induction ps with
  | nil =>
    intro init i p h
    simp at h
  | cons q qs ih =>
    intro init i p h
    cases i with
    | zero =>
      injection h with h
      subst h
      simp only [run_polls, List.get?]
      rw [adjust_eq]
    | succ i =>
      simp only [List.get?] at h
      simp only [run_polls, List.get?]
      exact ih _ i p h

/-- Claim C1 counterexample: a payload whose status section is missing the
mode field is not treated like `mode == "stop"` by the thermostat's
stop-vs-heating classification: it classifies as heating, while a
`mode == "stop"` payload classifies as off. -/
theorem pifire_C1_cex :
    hvac_mode no_mode_payload = .heat ∧ hvac_mode stop_payload = .off ∧
    hvac_mode no_mode_payload ≠ hvac_mode stop_payload :=
  ⟨by decide, by decide, by decide⟩

/-- Claim C1 (amended): for a payload whose mode field is missing, empty, or
not a recognized token, the mode selector's current option is `"Stop"`, the
same value it shows for `mode == "stop"`; the thermostat's stop-vs-heating
classification, however, treats only a payload whose lowercased mode equals
`"stop"` as stopped — a missing or unrecognized mode whose lowercasing is not
`"stop"` is classified as heating. -/
theorem pifire_C1 (p : RawPayload) :
    (mode_unrecognized p → current_option p = "Stop") ∧
    current_option stop_payload = "Stop" ∧
    (hvac_mode p = .off ↔ norm_mode p = "stop") ∧
    (mode_unrecognized p → norm_mode p ≠ "stop" → hvac_mode p = .heat) := by
  refine ⟨?_, by decide, ⟨?_, ?_⟩, ?_⟩
  · intro h
    unfold mode_unrecognized at h
    unfold current_option
    cases hm : p.status.mode with
    | none => rfl
    | some m =>
      rw [hm] at h
      replace h : m = "" ∨ pyTitle m ∉ mode_options := h
      show (if m ≠ "" ∧ pyTitle m ∈ mode_options then pyTitle m else "Stop") = "Stop"
      rw [if_neg]
      rintro ⟨hne, hmem⟩
      rcases h with h | h
      · exact hne h
      · exact h hmem
  · intro h
    by_contra hn
    unfold hvac_mode at h
    rw [if_neg hn] at h
    exact HVACMode.noConfusion h
  · intro h
    unfold hvac_mode
    rw [if_pos h]
  · intro _ hne
    unfold hvac_mode
    rw [if_neg hne]

/-- Witness for C1 at the concrete no-mode payload. -/
theorem pifire_C1_witness :
    current_option no_mode_payload = "Stop" ∧ hvac_mode no_mode_payload = .heat :=
  ⟨(pifire_C1 no_mode_payload).1 trivial,
   (pifire_C1 no_mode_payload).2.2.2 trivial (by decide)⟩

/-- Claim C2: the coordinator starts at the slow 30 s interval; after every
successful cycle the interval equals 5 s exactly when that cycle's normalized
mode is in `{startup, smoke, monitor, hold}` and 30 s otherwise; and the
mode sequence `[stop, hold, hold, stop]` yields the interval states
`[slow, fast, fast, slow]`, each change taking effect only from the
following cycle. -/
theorem pifire_C2 (ps : List RawPayload) (i : Nat) (p : RawPayload) :
    initial_update_interval = 30 ∧
    (ps.get? i = some p →
      (run_polls initial_update_interval ps).get? i =
        some (if norm_mode p ∈ FAST_UPDATE_MODES then FAST_UPDATE_INTERVAL
              else SLOW_UPDATE_INTERVAL)) ∧
    (ps.get? i = some p →
      ((run_polls initial_update_interval ps).get? i = some FAST_UPDATE_INTERVAL ↔
        norm_mode p ∈ FAST_UPDATE_MODES)) ∧
    run_polls initial_update_interval
        [mk_mode_payload (some "stop"), mk_mode_payload (some "hold"),
         mk_mode_payload (some "hold"), mk_mode_payload (some "stop")] =
      [SLOW_UPDATE_INTERVAL, FAST_UPDATE_INTERVAL, FAST_UPDATE_INTERVAL,
       SLOW_UPDATE_INTERVAL] := by
  refine ⟨rfl, ?_, ?_, by decide⟩
  · intro h
    rw [run_polls_get ps _ i p h]
    rfl
  · intro h
    rw [run_polls_get ps _ i p h]
    by_cases hm : norm_mode p ∈ FAST_UPDATE_MODES
    · simp [required_interval, hm]
    · simp [required_interval, hm, FAST_UPDATE_INTERVAL, SLOW_UPDATE_INTERVAL]

/-- Witness for C2 at a one-cycle hold run. -/
theorem pifire_C2_witness :
    (run_polls initial_update_interval [mk_mode_payload (some "hold")]).get? 0 =
      some (if norm_mode (mk_mode_payload (some "hold")) ∈ FAST_UPDATE_MODES
            then FAST_UPDATE_INTERVAL else SLOW_UPDATE_INTERVAL) :=
  (pifire_C2 [mk_mode_payload (some "hold")] 0 (mk_mode_payload (some "hold"))).2.1 rfl

/-- Claim C3 counterexample: on a stopped payload whose raw grill field is
150, the thermostat's derived grill temperature is 150, not 0.0 (only the
probe sensor forces 0.0). -/
theorem pifire_C3_cex :
    norm_mode c3_payload = "stop" ∧ native_value c3_payload "Grill" = some 0 ∧
    current_temperature c3_payload = some 150 ∧
    current_temperature c3_payload ≠ some 0 :=
  ⟨by decide, by decide, by decide, by decide⟩

/-- Claim C3 (amended): for every payload with normalized mode `"stop"`, the
grill probe sensor derives exactly 0.0 regardless of the raw grill field (and
re-deriving on the same payload gives 0.0 again, the derivation being a pure
function); the thermostat's `current_temperature`, however, applies no
stop-mode override and reports the parsed raw `P["Grill"]` value. -/
theorem pifire_C3 (p : RawPayload) (h : norm_mode p = "stop") :
    native_value p "Grill" = some 0 ∧
    (∀ q : Rat, p.current.P.lookup "Grill" = some (.jnum q) →
      current_temperature p = some q) := by
  constructor
  · simp only [native_value]
    rw [if_pos ⟨by decide, h⟩]
  · intro q hq
    unfold current_temperature
    rw [hq]
    rfl

/-- Witness for C3 at the concrete stopped payload. -/
theorem pifire_C3_witness :
    native_value c3_payload "Grill" = some 0 ∧
    current_temperature c3_payload = some 150 :=
  ⟨(pifire_C3 c3_payload (by decide)).1,
   (pifire_C3 c3_payload (by decide)).2 150 rfl⟩

/-- Claim C4: for a non-grill probe label the resolved temperature is the
filtered-map (`F`) value unless that value is absent/non-numeric or exactly 0,
in which case the raw-map (`NT`) value is used, but only if that fallback is
itself numeric and non-zero; otherwise the resolved value stays the
filtered-map value (0 or absent), never promoted to absent when the filtered
value was 0. -/
theorem pifire_C4 (p : RawPayload) (label : String)
    (hg : lowerStr label ≠ "grill") :
    (∀ q : Rat, py_num_opt (p.current.F.lookup label) = some q → q ≠ 0 →
      native_value p label = some q) ∧
    ((py_num_opt (p.current.F.lookup label) = none ∨
        py_num_opt (p.current.F.lookup label) = some 0) →
      ∀ w : Rat, py_num_opt (p.current.NT.lookup label) = some w → w ≠ 0 →
        native_value p label = some w) ∧
    ((py_num_opt (p.current.F.lookup label) = none ∨
        py_num_opt (p.current.F.lookup label) = some 0) →
      (py_num_opt (p.current.NT.lookup label) = none ∨
        py_num_opt (p.current.NT.lookup label) = some 0) →
      native_value p label = py_num_opt (p.current.F.lookup label)) := by
  have hbase : native_value p label =
      (if py_num_opt (p.current.F.lookup label) = none ∨
          py_num_opt (p.current.F.lookup label) = some 0 then
        if py_num_opt (p.current.NT.lookup label) ≠ none ∧
            py_num_opt (p.current.NT.lookup label) ≠ some 0 then
          py_num_opt (p.current.NT.lookup label)
        else py_num_opt (p.current.F.lookup label)
      else py_num_opt (p.current.F.lookup label)) := by
    simp only [native_value]
    rw [if_neg (fun hc => hg hc.1), if_neg hg]
  refine ⟨?_, ?_, ?_⟩
  · intro q hf hq0
    rw [hbase, hf, if_neg]
    rintro (h | h)
    · exact Option.noConfusion h
    · exact hq0 (Option.some.inj h)
  · intro hf0 w hn hw0
    rw [hbase, if_pos hf0, hn, if_pos]
    exact ⟨fun h => Option.noConfusion h, fun h => hw0 (Option.some.inj h)⟩
  · intro hf0 hn0
    rw [hbase, if_pos hf0, if_neg]
    rintro ⟨h1, h2⟩
    rcases hn0 with h | h
    · exact h1 h
    · exact h2 h

/-- Witness for C4 at a probe whose filtered value is 0 and raw value 42. -/
theorem pifire_C4_witness : native_value c4_payload "Probe1" = some 42 :=
  (pifire_C4 c4_payload "Probe1" (by decide)).2.1 (Or.inr rfl) 42 rfl (by decide)

/-- Claim C5 counterexample: the thermostat's temperature parsing has no
`"unknown"` special case — a grill field holding the string `"unknown"`
derives to absent (`None`), not 0.0, while the probe sensor derives 0.0. -/
theorem pifire_C5_cex :
    current_temperature c5_payload = none ∧
    current_temperature c5_payload ≠ some 0 ∧
    native_value c5_payload "Grill" = some 0 :=
  ⟨by decide, by decide, by decide⟩

/-- Claim C5 (amended): in the probe sensor's numeric parser, `"unknown"` in
any letter case coerces to 0.0 and any other unparseable value to absent,
never an error; the thermostat's parsing has no `"unknown"` special case, so
`"unknown"` there is simply unparseable and derives to absent. -/
theorem pifire_C5 (p : RawPayload) (s : String) (v : JVal) :
    (lowerStr s = "unknown" → py_num (.jstr s) = some 0) ∧
    (lowerStr s = "unknown" → pyFloat (.jstr s) = none) ∧
    (pyFloat v = none → (∀ t, v = .jstr t → lowerStr t ≠ "unknown") →
      py_num v = none) ∧
    (lowerStr s = "unknown" → norm_mode p ≠ "stop" →
      p.current.P.lookup "Grill" = some (.jstr s) →
      native_value p "Grill" = some 0 ∧ current_temperature p = none) := by
  refine ⟨?_, ?_, ?_, ?_⟩
  · intro h
    show (if lowerStr s = "unknown" then some 0 else parseFloat s) = some 0
    rw [if_pos h]
  · intro h
    exact parseFloat_unknown h
  · intro hv hns
    cases v with
    | jstr t =>
      show (if lowerStr t = "unknown" then some 0 else parseFloat t) = none
      rw [if_neg (hns t rfl)]
      exact hv
    | jnull => exact hv
    | jnum q => exact hv
    | jbool b => exact hv
    | jother => exact hv
  · intro hu hmode hl
    constructor
    · simp only [native_value]
      rw [if_neg (fun hc => hmode hc.2), if_pos (by decide : lowerStr "Grill" = "grill")]
      rw [hl]
      show (if lowerStr s = "unknown" then some 0 else parseFloat s) = some 0
      rw [if_pos hu]
    · unfold current_temperature
      rw [hl]
      show pyFloat (.jstr s) = none
      exact parseFloat_unknown hu

/-- Witness for C5 at the string `"Unknown"` and the concrete payload. -/
theorem pifire_C5_witness :
    py_num (.jstr "Unknown") = some 0 ∧ native_value c5_payload "Grill" = some 0 ∧
    current_temperature c5_payload = none :=
  ⟨(pifire_C5 c5_payload "Unknown" .jnull).1 (by decide),
   ((pifire_C5 c5_payload "unknown" .jnull).2.2.2 (by decide) (by decide) rfl).1,
   ((pifire_C5 c5_payload "unknown" .jnull).2.2.2 (by decide) (by decide) rfl).2⟩

/-- Claim C6: the thermostat's target temperature and the setpoint number
entity both resolve the setpoint with the same precedence — the numeric `PSP`
field first, else the numeric grill entry of the `P` map, else absent — and
on the spec's scenario payload the setpoint is 225, the grill probe reads 224
and the coordinator's required interval is the fast one. -/
theorem pifire_C6 (p : RawPayload) :
    target_temperature p = spec_setpoint p.current ∧
    get_current_psp p = spec_setpoint p.current ∧
    get_current_psp p = target_temperature p ∧
    target_temperature scenario_payload = some 225 ∧
    get_current_psp scenario_payload = some 225 ∧
    native_value scenario_payload "Grill" = some 224 ∧
    norm_mode scenario_payload = "hold" ∧
    required_interval scenario_payload = FAST_UPDATE_INTERVAL := by
  have h1 : target_temperature p = spec_setpoint p.current := by
    unfold target_temperature spec_setpoint
    cases hP : p.current.PSP with
    | none => rfl
    | some v =>
      show (match pyFloat v with
            | some q => some q
            | none => (p.current.P.lookup "Grill").bind pyFloat) =
          (match pyFloat v with
            | some q => some q
            | none => (p.current.P.lookup "Grill").bind pyFloat)
      rfl
  have h2 : get_current_psp p = spec_setpoint p.current := by
    unfold get_current_psp spec_setpoint
    cases hP : p.current.PSP with
    | none =>
      cases hG : p.current.P.lookup "Grill" with
      | none => rfl
      | some sp => rfl
    | some v =>
      show (match pyFloat v with
            | some q => some q
            | none =>
              match p.current.P.lookup "Grill" with
              | some sp => pyFloat sp
              | none => none) =
          (match pyFloat v with
            | some q => some q
            | none => (p.current.P.lookup "Grill").bind pyFloat)
      cases hv : pyFloat v with
      | some q => rfl
      | none =>
        cases hG : p.current.P.lookup "Grill" with
        | none => rfl
        | some sp => rfl
  exact ⟨h1, h2, h2.trans h1.symm, by decide, by decide, by decide, by decide,
    by decide⟩

/-- Claim C7: hopper fetch failures never fail the combined poll cycle — the
client converts them to an empty result and the merged payload carries the
`"hopper"` key exactly when the hopper fetch returned non-empty data — while
a current-status fetch error fails the cycle. -/
theorem pifire_C7 (cur : RawPayload) (hr : Except Unit (List (String × JVal)))
    (h : cur.hopper = none) :
    get_hopper_data (.error ()) = [] ∧
    async_update_data (.error ()) hr = .error () ∧
    (∃ q : RawPayload, async_update_data (.ok cur) hr = .ok q) ∧
    (∀ q : RawPayload, async_update_data (.ok cur) hr = .ok q →
      (q.hopper ≠ none ↔ get_hopper_data hr ≠ [])) := by
  refine ⟨rfl, rfl, ?_, ?_⟩
  · simp only [async_update_data]
    split
    · exact ⟨cur, rfl⟩
    · exact ⟨_, rfl⟩
  · intro q hq
    simp only [async_update_data] at hq
    split at hq
    · rename_i he
      injection hq with hq
      subst hq
      rw [h]
      simp [List.isEmpty_iff.mp he]
    · rename_i he
      injection hq with hq
      subst hq
      simp only [ne_eq, reduceCtorEq, not_false_eq_true, true_iff]
      intro hnil
      rw [hnil] at he
      exact he rfl

/-- Witness for C7 at a hopper transport error and the empty payload. -/
theorem pifire_C7_witness :
    get_hopper_data (.error ()) = [] ∧
    async_update_data (.error ()) (.error ()) = .error () ∧
    (∃ q : RawPayload, async_update_data (.ok no_mode_payload) (.error ()) = .ok q) ∧
    (no_mode_payload.hopper ≠ none ↔ get_hopper_data (.error ()) ≠ []) :=
  ⟨(pifire_C7 no_mode_payload (.error ()) rfl).1,
   (pifire_C7 no_mode_payload (.error ()) rfl).2.1,
   (pifire_C7 no_mode_payload (.error ()) rfl).2.2.1,
   (pifire_C7 no_mode_payload (.error ()) rfl).2.2.2 no_mode_payload rfl⟩

/-- Claim C8 counterexample: `primePellets(grams=0, "stop")` is not rejected
before a network request — the client issues the GET for grams 0 and, with a
responsive device, reports success. -/
theorem pifire_C8_cex :
    (prime_pellets (fun _ => true) "http://host" 0 "stop").1 =
      [⟨"GET", "http://host/api/set/mode/prime/0/stop"⟩] ∧
    (prime_pellets (fun _ => true) "http://host" 0 "stop").1 ≠ [] ∧
    (prime_pellets (fun _ => true) "http://host" 0 "stop").2 = .ok () :=
  ⟨rfl, by decide, rfl⟩

/-- Claim C8 (amended): the client performs no validation of `grams`: for
every grams value, zero and negative included, exactly one GET request to
`/api/set/mode/prime/{grams}/{next_mode}` is issued, and the call errors
exactly when the network call fails — never because of the grams value.
The only grams constraint in the integration is the UI number entity's
minimum of 1. -/
theorem pifire_C8 (net : HttpRequest → Bool) (base : String) (grams : Int)
    (next_mode : String) :
    (prime_pellets net base grams next_mode).1 =
      [⟨"GET", base ++ "/api/set/mode/prime/" ++ toString grams ++ "/" ++ next_mode⟩] ∧
    (prime_pellets net base grams next_mode).1 ≠ [] ∧
    ((prime_pellets net base grams next_mode).2 = .ok () ↔
      net ⟨"GET", base ++ "/api/set/mode/prime/" ++ toString grams ++ "/" ++ next_mode⟩ =
        true) := by
  refine ⟨rfl, by simp [prime_pellets], ?_⟩
  by_cases hn : net ⟨"GET", base ++ "/api/set/mode/prime/" ++ toString grams ++ "/" ++ next_mode⟩ = true
  · simp [prime_pellets, hn]
  · simp [prime_pellets, hn]

/-- Claim C10: the P-Mode selector rejects any option outside P0–P9 with an
error, and rejects any selection while the device mode is not `"hold"` with
an error raised before any network request — in both cases no request is
issued and no state changes. -/
theorem pifire_C10 (p : RawPayload) (base : String) (net : HttpRequest → Bool)
    (option : String) :
    (option ∉ pmode_options →
      pmode_select_option p base net option =
        ([], .error ("Invalid P-Mode option: " ++ option))) ∧
    (norm_mode p ≠ "hold" →
      (pmode_select_option p base net option).1 = [] ∧
      ∃ msg, pmode_select_option p base net option = ([], .error msg)) := by
  constructor
  · intro h
    unfold pmode_select_option
    rw [if_pos h]
  · intro hm
    unfold pmode_select_option
    by_cases ho : option ∉ pmode_options
    · rw [if_pos ho]
      exact ⟨rfl, _, rfl⟩
    · have hact : ¬ is_pmode_active p = true := by
        simp only [is_pmode_active, decide_eq_true_eq]
        exact hm
      rw [if_neg ho, if_pos hact]
      exact ⟨rfl, _, rfl⟩

/-- Witness for C10 at a smoking device and the options `P12` and `P3`. -/
theorem pifire_C10_witness :
    pmode_select_option (mk_mode_payload (some "smoke")) "http://h" (fun _ => true) "P12" =
      ([], .error ("Invalid P-Mode option: " ++ "P12")) ∧
    (pmode_select_option (mk_mode_payload (some "smoke")) "http://h" (fun _ => true) "P3").1 =
      [] :=
  ⟨(pifire_C10 (mk_mode_payload (some "smoke")) "http://h" (fun _ => true) "P12").1
      (by decide),
   ((pifire_C10 (mk_mode_payload (some "smoke")) "http://h" (fun _ => true) "P3").2
      (by decide)).1⟩

/-- A key emitted by the probe loop was not in the created set it started
from. -/
theorem probe_loop_not_mem (ex : String → Bool) :
    ∀ (labels created : List String) (k : String),
      k ∈ probe_loop created ex labels → k ∉ created := by
  intro labels
  induction labels with
  | nil =>
    intro created k h
    simp [probe_loop] at h
  | cons l ls ih =>
    intro created k h
    by_cases hex : ex l = true
    · by_cases hm : ("probe:" ++ l) ∈ created
      · simp only [probe_loop, if_pos hex, if_pos hm] at h
        exact ih created k h
      · simp only [probe_loop, if_pos hex, if_neg hm] at h
        rcases List.mem_cons.mp h with rfl | h2
        · exact hm
        · intro hk
          exact ih (created ++ ["probe:" ++ l]) k h2 (List.mem_append_left _ hk)
    · simp only [probe_loop, if_neg hex] at h
      exact ih created k h

/-- The probe loop emits nothing when every eligible key is already
created. -/
theorem probe_loop_nil_of (ex : String → Bool) :
    ∀ (labels created : List String),
      (∀ l ∈ labels, ex l = true → ("probe:" ++ l) ∈ created) →
      probe_loop created ex labels = [] := by
  intro labels
  induction labels with
  | nil => intro created _; rfl
  | cons l ls ih =>
    intro created h
    by_cases hex : ex l = true
    · have hm : ("probe:" ++ l) ∈ created := h l (List.mem_cons_self l ls) hex
      simp only [probe_loop, if_pos hex, if_pos hm]
      exact ih created fun x hx hex2 => h x (List.mem_cons_of_mem l hx) hex2
    · simp only [probe_loop, if_neg hex]
      exact ih created fun x hx hex2 => h x (List.mem_cons_of_mem l hx) hex2

/-- After the probe loop, every eligible key is in the created set extended
by the emitted keys. -/
theorem probe_loop_complete (ex : String → Bool) :
    ∀ (labels created : List String) (l : String), l ∈ labels → ex l = true →
      ("probe:" ++ l) ∈ created ++ probe_loop created ex labels := by
  intro labels
  induction labels with
  | nil =>
    intro created l h
    exact absurd h (List.not_mem_nil l)
  | cons a ls ih =>
    intro created l hl hex
    rcases List.mem_cons.mp hl with rfl | hl2
    · by_cases hm : ("probe:" ++ l) ∈ created
      · exact List.mem_append_left _ hm
      · simp only [probe_loop, if_pos hex, if_neg hm]
        exact List.mem_append_right _ (List.mem_cons_self _ _)
    · by_cases hexa : ex a = true
      · by_cases hm : ("probe:" ++ a) ∈ created
        · simp only [probe_loop, if_pos hexa, if_pos hm]
          exact ih created l hl2 hex
        · simp only [probe_loop, if_pos hexa, if_neg hm]
          have h2 := ih (created ++ ["probe:" ++ a]) l hl2 hex
          simp only [List.mem_append, List.mem_cons, List.mem_singleton] at h2 ⊢
          tauto
      · simp only [probe_loop, if_neg hexa]
        exact ih created l hl2 hex

/-- When exactly one eligible key is new, the probe loop emits exactly that
key. -/
theorem probe_loop_single (ex : String → Bool) :
    ∀ (labels created : List String) (L : String),
      ("probe:" ++ L) ∉ created →
      (∀ l ∈ labels, ex l = true →
        ("probe:" ++ l) = ("probe:" ++ L) ∨ ("probe:" ++ l) ∈ created) →
      (∃ l, l ∈ labels ∧ ex l = true ∧ ("probe:" ++ l) = ("probe:" ++ L)) →
      probe_loop created ex labels = ["probe:" ++ L] := by
  intro labels
  induction labels with
  | nil =>
    intro created L _ _ hex
    obtain ⟨l, hl, _⟩ := hex
    exact absurd hl (List.not_mem_nil l)
  | cons a ls ih =>
    intro created L hnew hall hex
    by_cases hexa : ex a = true
    · by_cases hka : ("probe:" ++ a) = ("probe:" ++ L)
      · have hm : ("probe:" ++ a) ∉ created := by rw [hka]; exact hnew
        simp only [probe_loop, if_pos hexa, if_neg hm]
        have hnil : probe_loop (created ++ ["probe:" ++ a]) ex ls = [] := by
          apply probe_loop_nil_of
          intro x hx hexx
          rcases hall x (List.mem_cons_of_mem a hx) hexx with h | h
          · rw [h, ← hka]
            exact List.mem_append_right _ (List.mem_singleton.mpr rfl)
          · exact List.mem_append_left _ h
        rw [hnil, hka]
      · have hm : ("probe:" ++ a) ∈ created := by
          rcases hall a (List.mem_cons_self a ls) hexa with h | h
          · exact absurd h hka
          · exact h
        simp only [probe_loop, if_pos hexa, if_pos hm]
        apply ih created L hnew fun x hx => hall x (List.mem_cons_of_mem a hx)
        obtain ⟨l, hl, hexl, hkl⟩ := hex
        rcases List.mem_cons.mp hl with rfl | hl2
        · exact absurd hkl hka
        · exact ⟨l, hl2, hexl, hkl⟩
    · simp only [probe_loop, if_neg hexa]
      apply ih created L hnew fun x hx => hall x (List.mem_cons_of_mem a hx)
      obtain ⟨l, hl, hexl, hkl⟩ := hex
      rcases List.mem_cons.mp hl with rfl | hl2
      · exact absurd hexl hexa
      · exact ⟨l, hl2, hexl, hkl⟩

/-- The created set only grows through the intermediate scan states. -/
theorem subset_scan_c3 (s : List String) (p : RawPayload) : s ⊆ scan_c3 s p :=
  fun _ hx =>
    List.mem_append_left _ (List.mem_append_left _ (List.mem_append_left _ hx))

/-- A scan's resulting created set is the starting set plus the emitted
keys, in order. -/
theorem scan_state_eq (s : List String) (p : Option RawPayload) :
    (scan s p).2 = s ++ (scan s p).1 := by
  cases p with
  | none => simp [scan]
  | some p =>
    show scan_c3 s p ++ scan_pk s p =
      s ++ (scan_k1 s ++ (scan_k2 s ++ (scan_k3 s p ++ scan_pk s p)))
    simp only [scan_c3, scan_c2, scan_c1, List.append_assoc]

/-- A key emitted by a scan was not yet in the created set. -/
theorem scan_new_not_mem (s : List String) (p : Option RawPayload) (k : String)
    (h : k ∈ (scan s p).1) : k ∉ s := by
  cases p with
  | none => simp [scan] at h
  | some p =>
    intro hk
    replace h : k ∈ scan_k1 s ++ (scan_k2 s ++ (scan_k3 s p ++ scan_pk s p)) := h
    simp only [List.mem_append] at h
    rcases h with h | h | h | h
    · unfold scan_k1 at h
      split at h
      · exact absurd h (List.not_mem_nil k)
      · rename_i hrec
        rw [List.mem_singleton] at h
        subst h
        exact hrec hk
    · unfold scan_k2 at h
      split at h
      · exact absurd h (List.not_mem_nil k)
      · rename_i hrun
        rw [List.mem_singleton] at h
        subst h
        exact hrun (List.mem_append_left _ hk)
    · unfold scan_k3 at h
      split at h
      · rename_i hc
        rw [List.mem_singleton] at h
        subst h
        exact hc.2 (List.mem_append_left _ (List.mem_append_left _ hk))
      · exact absurd h (List.not_mem_nil k)
    · exact probe_loop_not_mem (scan_exists p) (scan_labels p) (scan_c3 s p) k h
        (subset_scan_c3 s p hk)

/-- The created set never shrinks across one scan. -/
theorem scan_mono (s : List String) (p : Option RawPayload) : s ⊆ (scan s p).2 := by
  rw [scan_state_eq]
  exact fun _ hx => List.mem_append_left _ hx

/-- `"recipe"` is created after any scan of a dict payload. -/
theorem recipe_mem_after (s : List String) (p : RawPayload) :
    "recipe" ∈ (scan s (some p)).2 := by
  show "recipe" ∈ scan_c3 s p ++ scan_pk s p
  refine List.mem_append_left _ (List.mem_append_left _ (List.mem_append_left _ ?_))
  show "recipe" ∈ s ++ scan_k1 s
  by_cases h : "recipe" ∈ s
  · exact List.mem_append_left _ h
  · refine List.mem_append_right _ ?_
    unfold scan_k1
    rw [if_neg h]
    exact List.mem_singleton.mpr rfl

/-- `"runtime"` is created after any scan of a dict payload. -/
theorem runtime_mem_after (s : List String) (p : RawPayload) :
    "runtime" ∈ (scan s (some p)).2 := by
  show "runtime" ∈ scan_c3 s p ++ scan_pk s p
  refine List.mem_append_left _ (List.mem_append_left _ ?_)
  show "runtime" ∈ scan_c1 s ++ scan_k2 s
  by_cases h : "runtime" ∈ scan_c1 s
  · exact List.mem_append_left _ h
  · refine List.mem_append_right _ ?_
    unfold scan_k2
    rw [if_neg h]
    exact List.mem_singleton.mpr rfl

/-- `"pellet_level"` is created after any scan of a dict payload reporting a
hopper level. -/
theorem pellet_mem_after (s : List String) (p : RawPayload)
    (hc : pellet_cond p = true) : "pellet_level" ∈ (scan s (some p)).2 := by
  show "pellet_level" ∈ scan_c3 s p ++ scan_pk s p
  refine List.mem_append_left _ ?_
  show "pellet_level" ∈ scan_c2 s ++ scan_k3 s p
  by_cases h : "pellet_level" ∈ scan_c2 s
  · exact List.mem_append_left _ h
  · refine List.mem_append_right _ ?_
    unfold scan_k3
    rw [if_pos ⟨hc, h⟩]
    exact List.mem_singleton.mpr rfl

/-- Every eligible probe key is created after a scan of its payload. -/
theorem probe_mem_after (s : List String) (p : RawPayload) (l : String)
    (hl : l ∈ scan_labels p) (hex : scan_exists p l = true) :
    ("probe:" ++ l) ∈ (scan s (some p)).2 :=
  probe_loop_complete (scan_exists p) (scan_labels p) (scan_c3 s p) l hl hex

/-- A scan emits nothing when every key its payload can trigger is already
created. -/
theorem scan_nil_of (s : List String) (p : RawPayload)
    (hrec : "recipe" ∈ s) (hrun : "runtime" ∈ s)
    (hpel : pellet_cond p = true → "pellet_level" ∈ s)
    (hprobe : ∀ l ∈ scan_labels p, scan_exists p l = true → ("probe:" ++ l) ∈ s) :
    (scan s (some p)).1 = [] := by
  have hk1 : scan_k1 s = [] := by unfold scan_k1; rw [if_pos hrec]
  have hc1 : scan_c1 s = s := by unfold scan_c1; rw [hk1, List.append_nil]
  have hk2 : scan_k2 s = [] := by unfold scan_k2; rw [hc1, if_pos hrun]
  have hc2 : scan_c2 s = s := by unfold scan_c2; rw [hc1, hk2, List.append_nil]
  have hk3 : scan_k3 s p = [] := by
    unfold scan_k3
    rw [hc2, if_neg]
    rintro ⟨h1, h2⟩
    exact h2 (hpel h1)
  have hc3 : scan_c3 s p = s := by unfold scan_c3; rw [hc2, hk3, List.append_nil]
  have hpk : scan_pk s p = [] := by
    unfold scan_pk
    rw [hc3]
    exact probe_loop_nil_of _ _ _ hprobe
  show scan_k1 s ++ (scan_k2 s ++ (scan_k3 s p ++ scan_pk s p)) = []
  rw [hk1, hk2, hk3, hpk]
  rfl

/-- Scanning the same payload again right after a scan emits nothing. -/
theorem scan_idem (s : List String) (p : Option RawPayload) :
    (scan ((scan s p).2) p).1 = [] := by
  cases p with
  | none => rfl
  | some p =>
    exact scan_nil_of _ p (recipe_mem_after s p) (runtime_mem_after s p)
      (fun hc => pellet_mem_after s p hc)
      (fun l hl hex => probe_mem_after s p l hl hex)

/-- A key in the created set is never emitted by any later scan. -/
theorem scan_all_not_mem_of_mem (k : String) :
    ∀ (ps : List (Option RawPayload)) (s : List String), k ∈ s →
      ∀ out ∈ (scan_all s ps).1, k ∉ out := by
  intro ps
  induction ps with
  | nil =>
    intro s _ out hout
    simp [scan_all] at hout
  | cons p ps ih =>
    intro s hk out hout
    replace hout : out ∈ (scan s p).1 :: (scan_all (scan s p).2 ps).1 := hout
    rcases List.mem_cons.mp hout with rfl | h2
    · intro hkk
      exact scan_new_not_mem s p k hkk hk
    · exact ih (scan s p).2 (scan_mono s p hk) out h2

/-- The created set never shrinks over a whole scan sequence. -/
theorem scan_all_mono : ∀ (ps : List (Option RawPayload)) (s : List String),
    s ⊆ (scan_all s ps).2 := by
  intro ps
  induction ps with
  | nil => intro s x hx; exact hx
  | cons p ps ih =>
    intro s x hx
    exact ih (scan s p).2 (scan_mono s p hx)

/-- Claim C9: discovery is idempotent and monotonic over the created-key
set — a scan only emits keys not yet in the set and appends them to it;
scanning an identical payload right after a scan emits nothing; a payload
adding exactly one new probe label emits exactly `"probe:<label>"`; and over
the lifetime of the set, a key once emitted is never emitted by any later
scan and the set never shrinks. -/
theorem pifire_C9 (s s2 : List String) (p : Option RawPayload) (p' : RawPayload)
    (L k : String) (ps : List (Option RawPayload)) :
    (s ⊆ (scan s p).2) ∧
    ((scan s p).2 = s ++ (scan s p).1) ∧
    (∀ k2 ∈ (scan s p).1, k2 ∉ s) ∧
    ((scan ((scan s p).2) p).1 = []) ∧
    ("recipe" ∈ s2 → "runtime" ∈ s2 →
      (pellet_cond p' = true → "pellet_level" ∈ s2) →
      ("probe:" ++ L) ∉ s2 →
      (∀ l ∈ scan_labels p', scan_exists p' l = true →
        ("probe:" ++ l) = ("probe:" ++ L) ∨ ("probe:" ++ l) ∈ s2) →
      (∃ l, l ∈ scan_labels p' ∧ scan_exists p' l = true ∧
        ("probe:" ++ l) = ("probe:" ++ L)) →
      (scan s2 (some p')).1 = ["probe:" ++ L]) ∧
    (k ∈ (scan s p).1 → ∀ out ∈ (scan_all ((scan s p).2) ps).1, k ∉ out) ∧
    (s ⊆ (scan_all s ps).2) := by
  refine ⟨scan_mono s p, scan_state_eq s p, fun k2 h => scan_new_not_mem s p k2 h,
    scan_idem s p, ?_, ?_, scan_all_mono ps s⟩
  · intro hrec hrun hpel hnew hall hex
    have hk1 : scan_k1 s2 = [] := by unfold scan_k1; rw [if_pos hrec]
    have hc1 : scan_c1 s2 = s2 := by unfold scan_c1; rw [hk1, List.append_nil]
    have hk2 : scan_k2 s2 = [] := by unfold scan_k2; rw [hc1, if_pos hrun]
    have hc2 : scan_c2 s2 = s2 := by unfold scan_c2; rw [hc1, hk2, List.append_nil]
    have hk3 : scan_k3 s2 p' = [] := by
      unfold scan_k3
      rw [hc2, if_neg]
      rintro ⟨h1, h2⟩
      exact h2 (hpel h1)
    have hc3 : scan_c3 s2 p' = s2 := by
      unfold scan_c3
      rw [hc2, hk3, List.append_nil]
    have hpk : scan_pk s2 p' = ["probe:" ++ L] := by
      unfold scan_pk
      rw [hc3]
      exact probe_loop_single _ _ _ _ hnew hall hex
    show scan_k1 s2 ++ (scan_k2 s2 ++ (scan_k3 s2 p' ++ scan_pk s2 p')) =
      ["probe:" ++ L]
    rw [hk1, hk2, hk3, hpk]
    rfl
  · intro hk out hout
    have hk2 : k ∈ (scan s p).2 := by
      rw [scan_state_eq]
      exact List.mem_append_right _ hk
    exact scan_all_not_mem_of_mem k ps ((scan s p).2) hk2 out hout

/-- Witness for C9: scanning `disc_payload1` twice emits nothing the second
time; scanning the extended `disc_payload2` from the resulting set emits
exactly `probe:Probe2`; and the key `probe:Grill`, already discovered, is not
in the later scan's output. -/
theorem pifire_C9_witness :
    (scan ((scan [] (some disc_payload1)).2) (some disc_payload1)).1 = [] ∧
    (scan disc_state1 (some disc_payload2)).1 = ["probe:" ++ "Probe2"] ∧
    "probe:Grill" ∉ ["probe:Probe2"] :=
  ⟨(pifire_C9 [] [] (some disc_payload1) disc_payload1 "" "" []).2.2.2.1,
   (pifire_C9 [] disc_state1 (some disc_payload1) disc_payload2 "Probe2" "" []).2.2.2.2.1
     (by decide) (by decide) (fun hc => absurd hc (by decide)) (by decide)
     (by decide) (by decide),
   (pifire_C9 [] [] (some disc_payload1) disc_payload1 "" "probe:Grill"
       [some disc_payload2]).2.2.2.2.2.1 (by decide) ["probe:Probe2"] (by decide)⟩

end PiFire
